import Mathlib

/-!
Verification of the JAR (Jiu-Jitsu Attribute Rating) factor-calculation and
profile-derivation engine, embedded shallowly from the JavaScript sources
(`src/js/config.js`, `src/js/types.js`, and the profile generator).

JavaScript numbers are idealized: all factor arithmetic other than the age
factor is exact rational arithmetic and is embedded over `ℚ`; the age factor
uses `Math.pow` with a real-valued exponent and is embedded over `ℝ` with
`Real.rpow`.  A JavaScript object-property lookup that can yield `undefined`
is embedded as an `Option`-valued lookup over an association list.
-/

namespace JAR

/-- `types.js`, `FactorResults`: seven stored numbers for one practitioner. -/
structure FactorResults where
  brs : ℚ
  af : ℚ
  wf : ℚ
  acf : ℚ
  ref : ℚ
  tff : ℚ
  cef : ℚ
deriving DecidableEq, Repr

/-- `types.js`, `FactorResults.calculateHandicappedScore`:
`this.brs * this.af * this.wf * this.acf * this.ref * this.tff * this.cef`. -/
def FactorResults.calculateHandicappedScore (f : FactorResults) : ℚ :=
  f.brs * f.af * f.wf * f.acf * f.ref * f.tff * f.cef

/-- `config.js`, `age_factor_config`. -/
structure AgeFactorConfig where
  peak_age_years : ℚ
  youthful_factor_multiplier : ℚ
  power_decline_rate_per_decade : ℚ

/-- One entry of `weight_factor_config.thresholds_bonuses_penalties`. -/
structure WeightTier where
  diff_max_lbs : ℚ
  adjustment : ℚ

/-- `config.js`, `weight_factor_config`. -/
structure WeightFactorConfig where
  increment_lbs : ℚ
  thresholds_bonuses_penalties : List WeightTier

/-- One entry of `tff_config.levels`. -/
structure TffLevel where
  sessions_min : ℚ
  sessions_max : ℚ
  multiplier : ℚ

/-- `config.js`, `tff_config`. -/
structure TffConfig where
  levels : List TffLevel

/-- One entry of `cef_config.levels`. -/
structure CefLevel where
  level_id : ℕ
  multiplier : ℚ

/-- `config.js`, `cef_config`: the level table plus the label→level map
(`competition_level_mapping`), embedded as an association list. -/
structure CefConfig where
  levels : List CefLevel
  competition_level_mapping : List (String × ℕ)

/-- `config.js`, `profile_dynamics_config` (the two significance thresholds;
the free-text implication statements are irrelevant to classification). -/
structure ProfileDynamicsConfig where
  significant_multiplier_threshold_high : ℚ
  significant_multiplier_threshold_low : ℚ

/-- The sub-tables of `ConfigManager.defaultConfig` that the verified
operations read.  `belt_rank_scores` is a JavaScript object keyed by belt-rank
name, embedded as an association list. -/
structure Config where
  belt_rank_scores : List (String × ℚ)
  age_factor_config : AgeFactorConfig
  weight_factor_config : WeightFactorConfig
  tff_config : TffConfig
  cef_config : CefConfig
  profile_dynamics_config : ProfileDynamicsConfig

/-- `config.js`, `ConfigManager.defaultConfig` (the sub-tables embedded in
`Config`), transcribed value for value. -/
def defaultConfig : Config where
  belt_rank_scores :=
    [("White", 100), ("Blue", 200), ("Purple", 350), ("Brown", 550), ("Black", 800)]
  age_factor_config :=
    { peak_age_years := 25
      youthful_factor_multiplier := 1.03
      power_decline_rate_per_decade := 0.12 }
  weight_factor_config :=
    { increment_lbs := 15
      thresholds_bonuses_penalties :=
        [⟨15, 0.06⟩, ⟨30, 0.08⟩, ⟨45, 0.10⟩] }
  tff_config :=
    { levels := [⟨0, 1, 0.95⟩, ⟨2, 3, 1.00⟩, ⟨4, 5, 1.05⟩, ⟨6, 100, 1.10⟩] }
  cef_config :=
    { levels := [⟨0, 1.0⟩, ⟨1, 1.03⟩, ⟨2, 1.08⟩, ⟨3, 1.12⟩]
      competition_level_mapping :=
        [("None", 0), ("Limited Local", 1), ("Regular Regional", 2),
         ("National/International", 3)] }
  profile_dynamics_config :=
    { significant_multiplier_threshold_high := 1.10
      significant_multiplier_threshold_low := 0.90 }

/-- `config.js`, `JARCalculator.calculateBRS`:
`this.config.belt_rank_scores[practitioner.bjjBeltRank]` — a bare JavaScript
property access, so a rank absent from the table yields `undefined` (`none`);
no exception is thrown. -/
def calculateBRS (cfg : Config) (bjjBeltRank : String) : Option ℚ :=
  cfg.belt_rank_scores.lookup bjjBeltRank

/-- `config.js`, `JARCalculator.calculateWF`, the tier loop (lines 187–210):
walks the ordered tiers, consuming the weight difference progressively; state
is `(totalAdjustment, remainingDiff, highestTierAdjustment)` with
`lastTierMaxLbs` threaded as `last`.  The two `break`s become the two early
returns. -/
def wfLoop (inc : ℚ) : List WeightTier → ℚ → ℚ → ℚ → ℚ → ℚ × ℚ × ℚ
  | [], tot, rem, _last, high => (tot, rem, high)
  | t :: ts, tot, rem, last, high =>
    let lbsCovered := t.diff_max_lbs - last
    let lbsToConsider := min rem lbsCovered
    if lbsToConsider ≤ 0 then (tot, rem, high)
    else
      let tot2 := tot + lbsToConsider / inc * t.adjustment
      let rem2 := rem - lbsToConsider
      if rem2 ≤ 0 then (tot2, rem2, t.adjustment)
      else wfLoop inc ts tot2 rem2 t.diff_max_lbs t.adjustment

/-- `config.js`, `JARCalculator.calculateWF`, lines 187–216: the loop
followed by the spill-over branch `remainingDiff > 0 && highestTierAdjustment
> 0`, which prices any remaining difference at the highest tier's rate. -/
def totalAdjustment (cfg : WeightFactorConfig) (weightDifference : ℚ) : ℚ :=
  let r := wfLoop cfg.increment_lbs cfg.thresholds_bonuses_penalties 0 weightDifference 0 0
  if 0 < r.2.1 ∧ 0 < r.2.2 then r.1 + r.2.1 / cfg.increment_lbs * r.2.2 else r.1

/-- `config.js`, `JARCalculator.calculateWF`: neutral `1.0` without a
comparison practitioner or at zero weight difference; otherwise the heavier
side gets `1 + totalAdjustment`, the lighter `1 - totalAdjustment`.  Only the
two weights are read from the practitioner records. -/
def calculateWF (cfg : Config) (weightLbs : ℚ) (comparisonWeightLbs : Option ℚ) : ℚ :=
  match comparisonWeightLbs with
  | none => 1
  | some cw =>
    let weightDifference := |weightLbs - cw|
    if weightDifference ≤ 0 then 1
    else if cw < weightLbs then
      1 + totalAdjustment cfg.weight_factor_config weightDifference
    else
      1 - totalAdjustment cfg.weight_factor_config weightDifference

/-- `config.js`, `JARCalculator.calculateAF`: ages strictly below
`peak_age_years` get the flat youthful multiplier; otherwise
`Math.pow(1.0 - power_decline_rate_per_decade, (age - peak) / 10.0)` with a
real-valued (unrounded) exponent, embedded with `Real.rpow`. -/
noncomputable def calculateAF (cfg : Config) (ageYears : ℚ) : ℝ :=
  let ageConfig := cfg.age_factor_config
  if ageYears < ageConfig.peak_age_years then
    (ageConfig.youthful_factor_multiplier : ℝ)
  else
    ((1 - ageConfig.power_decline_rate_per_decade : ℚ) : ℝ) ^
      (((ageYears - ageConfig.peak_age_years) / 10 : ℚ) : ℝ)

/-- `config.js`, `JARCalculator.calculateTFF`, the band scan (lines 285–289):
the first level with `sessions_min ≤ sessions ≤ sessions_max`, if any. -/
def findTffLevel (sessions : ℚ) : List TffLevel → Option TffLevel
  | [] => none
  | level :: rest =>
    if level.sessions_min ≤ sessions ∧ sessions ≤ level.sessions_max then some level
    else findTffLevel sessions rest

/-- The band scan of `calculateTFF` over the configured `tff_config.levels`. -/
def tffMatch (cfg : Config) (sessions : ℚ) : Option TffLevel :=
  findTffLevel sessions cfg.tff_config.levels

/-- `config.js`, `JARCalculator.calculateTFF`: the matched band's multiplier,
else the fall-through `return 1.0`. -/
def calculateTFF (cfg : Config) (sessions : ℚ) : ℚ :=
  match tffMatch cfg sessions with
  | some level => level.multiplier
  | none => 1

/-- `config.js`, `JARCalculator.calculateCEF`: resolve the competition-level
label through `competition_level_mapping`; on a hit, scan `levels` for the
matching `level_id` and return its multiplier; on any miss fall through to
`cefConfig.levels[0].multiplier` (`none` if `levels` were empty, as the
JavaScript would fault there). -/
def calculateCEF (cfg : Config) (bjjCompetitionExperienceLevel : String) : Option ℚ :=
  let cefConfig := cfg.cef_config
  match cefConfig.competition_level_mapping.lookup bjjCompetitionExperienceLevel with
  | some levelId =>
    match cefConfig.levels.find? (fun level => level.level_id == levelId) with
    | some level => some level.multiplier
    | none => cefConfig.levels.head?.map CefLevel.multiplier
  | none => cefConfig.levels.head?.map CefLevel.multiplier

/-- The three-valued classification strings of
`ProfileGenerator.identifySignificantFactors`. -/
inductive Significance where
  | high
  | low
  | neutral
deriving DecidableEq, Repr

/-- The `factorSignificance` dictionary built by
`ProfileGenerator.identifySignificantFactors`: one entry per multiplicative
factor plus the specially-handled `brs` entry. -/
structure FactorSignificance where
  af : Significance
  wf : Significance
  acf : Significance
  ref : Significance
  tff : Significance
  cef : Significance
  brs : Significance
deriving DecidableEq, Repr

/-- The per-factor branch of `identifySignificantFactors`:
`value >= highThreshold → 'high'`, else `value <= lowThreshold → 'low'`,
else `'neutral'`. -/
def classifyValue (highThreshold lowThreshold value : ℚ) : Significance :=
  if highThreshold ≤ value then .high
  else if value ≤ lowThreshold then .low
  else .neutral

/-- `ProfileGenerator.identifySignificantFactors`: classify the six
multiplicative factors against the configured thresholds, then `brs`
binarily against `belt_rank_scores.Purple` (a JavaScript property access:
were `Purple` absent, `brs >= undefined` is false and the `'low'` branch is
taken). -/
def identifySignificantFactors (cfg : Config) (factors : FactorResults) :
    FactorSignificance :=
  let dynamicsConfig := cfg.profile_dynamics_config
  let highThreshold := dynamicsConfig.significant_multiplier_threshold_high
  let lowThreshold := dynamicsConfig.significant_multiplier_threshold_low
  { af := classifyValue highThreshold lowThreshold factors.af
    wf := classifyValue highThreshold lowThreshold factors.wf
    acf := classifyValue highThreshold lowThreshold factors.acf
    ref := classifyValue highThreshold lowThreshold factors.ref
    tff := classifyValue highThreshold lowThreshold factors.tff
    cef := classifyValue highThreshold lowThreshold factors.cef
    brs :=
      match cfg.belt_rank_scores.lookup "Purple" with
      | some purpleThreshold => if purpleThreshold ≤ factors.brs then .high else .low
      | none => .low }

/-- `['wf', 'acf', 'ref'].some(f => factorSignificance[f] === 'high')`. -/
def physicalFactorHigh (sig : FactorSignificance) : Prop :=
  sig.wf = .high ∨ sig.acf = .high ∨ sig.ref = .high

instance (sig : FactorSignificance) : Decidable (physicalFactorHigh sig) := by
  unfold physicalFactorHigh; infer_instance

/-- `ProfileGenerator.determineDominantTrait`: four guards tried in source
order, first match wins. -/
def determineDominantTrait (sig : FactorSignificance) : String :=
  if sig.brs = .high ∧ ¬physicalFactorHigh sig then "Technical BJJ Specialist"
  else if sig.brs = .low ∧ physicalFactorHigh sig then "Physical Grappling Athlete"
  else if sig.brs = .high ∧ physicalFactorHigh sig then "Dominant All-Rounder"
  else "Balanced Practitioner"

/-! ## Theorems -/

/-- C1: for every `FactorResults`, `calculateHandicappedScore` returns
exactly the product of the base score `brs` and the six multiplicative
factors `af, wf, acf, ref, tff, cef`, as an algebraic identity over the
stored fields. -/
theorem calculateHandicappedScore_eq_product (f : FactorResults) :
    f.calculateHandicappedScore =
      f.brs * (f.af * f.wf * f.acf * f.ref * f.tff * f.cef) := by
  unfold FactorResults.calculateHandicappedScore
  ring

/-- `calculateHandicappedScore_eq_product` evaluated at one concrete
breakdown. -/
theorem calculateHandicappedScore_eq_product_witness :
    (FactorResults.mk 100 2 3 4 5 6 7).calculateHandicappedScore =
      100 * (2 * 3 * 4 * 5 * 6 * 7) :=
  calculateHandicappedScore_eq_product (FactorResults.mk 100 2 3 4 5 6 7)

/-- C2: the code's behaviour at the failing input.  `calculateBRS` on a belt
rank absent from the default table is a bare property access yielding
`undefined` (`none`), with no error raised, while a known rank resolves to
its score.  This contradicts the spec's requirement that an unresolvable
rank surface an unrecoverable configuration-integrity error. -/
theorem calculateBRS_unknown_rank_is_silent :
    calculateBRS defaultConfig "Red" = none ∧
      calculateBRS defaultConfig "White" = some 100 := by
  constructor <;> simp [calculateBRS, defaultConfig, List.lookup]

/-- C7: a competition-experience label absent from the default lookup table
resolves, without any error, to the same multiplier as the label `"None"`
(the level-0 multiplier `1.0`). -/
theorem calculateCEF_unknown_label (label : String)
    (h : label ∉ defaultConfig.cef_config.competition_level_mapping.map Prod.fst) :
    calculateCEF defaultConfig label = calculateCEF defaultConfig "None" ∧
      calculateCEF defaultConfig label = some 1 := by
  simp only [defaultConfig, List.map, List.mem_cons, List.not_mem_nil, or_false,
    not_or] at h
  obtain ⟨h1, h2, h3, h4⟩ := h
  have b1 : (label == "None") = false := beq_eq_false_iff_ne.mpr h1
  have b2 : (label == "Limited Local") = false := beq_eq_false_iff_ne.mpr h2
  have b3 : (label == "Regular Regional") = false := beq_eq_false_iff_ne.mpr h3
  have b4 : (label == "National/International") = false := beq_eq_false_iff_ne.mpr h4
  refine ⟨?_, ?_⟩ <;>
    simp only [calculateCEF, defaultConfig, List.lookup, b1, b2, b3, b4] <;>
    norm_num

/-- `calculateCEF_unknown_label` at the concrete unrecognized label
`"Zzz"`. -/
theorem calculateCEF_unknown_label_witness :
    calculateCEF defaultConfig "Zzz" = calculateCEF defaultConfig "None" ∧
      calculateCEF defaultConfig "Zzz" = some 1 :=
  calculateCEF_unknown_label "Zzz" (by simp [defaultConfig])

/-- C10: every weekly session count that passes construction-time validation
(an integer between `0` and `14`) falls in one of the default configuration's
session bands, so `calculateTFF` returns that band's multiplier and its
neutral-`1.0` fallback branch is unreachable for validated inputs. -/
theorem calculateTFF_no_fallback (s : ℤ) (h0 : 0 ≤ s) (h14 : s ≤ 14) :
    ∃ level, tffMatch defaultConfig (s : ℚ) = some level ∧
      calculateTFF defaultConfig (s : ℚ) = level.multiplier := by
  have hsome : (tffMatch defaultConfig (s : ℚ)).isSome := by
    interval_cases s <;> norm_num [tffMatch, findTffLevel, defaultConfig]
  obtain ⟨level, hl⟩ := Option.isSome_iff_exists.mp hsome
  exact ⟨level, hl, by simp [calculateTFF, hl]⟩

/-- `calculateTFF_no_fallback` at the concrete validated session count `3`. -/
theorem calculateTFF_no_fallback_witness :
    ∃ level, tffMatch defaultConfig ((3 : ℤ) : ℚ) = some level ∧
      calculateTFF defaultConfig ((3 : ℤ) : ℚ) = level.multiplier :=
  calculateTFF_no_fallback 3 (by norm_num) (by norm_num)

/-- Closed form of the default configuration's tiered accumulated
adjustment: the first 15 lbs at rate `0.06`, the next 15 at `0.08`, the next
15 at `0.10`, and any spill-over past 45 lbs again at the highest rate
`0.10`, each tier prorated per `increment_lbs = 15`. -/
theorem totalAdjustment_default_eq (d : ℚ) (hd : 0 < d) :
    totalAdjustment defaultConfig.weight_factor_config d =
      if d ≤ 15 then d / 15 * (6 / 100)
      else if d ≤ 30 then 6 / 100 + (d - 15) / 15 * (8 / 100)
      else if d ≤ 45 then 6 / 100 + 8 / 100 + (d - 30) / 15 * (10 / 100)
      else 6 / 100 + 8 / 100 + 10 / 100 + (d - 45) / 15 * (10 / 100) := by
  rcases le_or_lt d 15 with h15 | h15
  · have hm1 : d ⊓ (15 : ℚ) = d := min_eq_left h15
    norm_num [totalAdjustment, defaultConfig, wfLoop, hm1,
      show ¬(d ≤ 0) from by linarith, h15]
  · have hm1 : d ⊓ (15 : ℚ) = 15 := min_eq_right h15.le
    rcases le_or_lt d 30 with h30 | h30
    · have hm2 : (d - 15) ⊓ (15 : ℚ) = d - 15 := min_eq_left (by linarith)
      norm_num [totalAdjustment, defaultConfig, wfLoop, hm1, hm2,
        show ¬(d ≤ 0) from by linarith, show ¬(d - 15 ≤ 0) from by linarith,
        h15.not_le, h30]
    · have hm2 : (d - 15) ⊓ (15 : ℚ) = 15 := min_eq_right (by linarith)
      rcases le_or_lt d 45 with h45 | h45
      · have hm3 : (d - 15 - 15) ⊓ (15 : ℚ) = d - 15 - 15 :=
          min_eq_left (by linarith)
        norm_num [totalAdjustment, defaultConfig, wfLoop, hm1, hm2, hm3,
          show ¬(d ≤ 0) from by linarith, show ¬(d - 15 ≤ 0) from by linarith,
          show ¬(d - 15 - 15 ≤ 0) from by linarith, h15.not_le, h30.not_le, h45]
        ring
      · have hm3 : (d - 15 - 15) ⊓ (15 : ℚ) = 15 := min_eq_right (by linarith)
        norm_num [totalAdjustment, defaultConfig, wfLoop, hm1, hm2, hm3,
          show ¬(d ≤ 0) from by linarith, show ¬(d - 15 ≤ 0) from by linarith,
          show ¬(d - 15 - 15 ≤ 0) from by linarith,
          show (0 : ℚ) < d - 15 - 15 - 15 from by linarith,
          h15.not_le, h30.not_le, h45.not_le]
        ring

/-- Under the default tier table, any strictly positive weight difference
produces a strictly positive accumulated adjustment. -/
theorem totalAdjustment_pos (d : ℚ) (hd : 0 < d) :
    0 < totalAdjustment defaultConfig.weight_factor_config d := by
  rw [totalAdjustment_default_eq d hd]
  split_ifs with h15 h30 h45
  · positivity
  · have h : (0 : ℚ) ≤ (d - 15) / 15 * (8 / 100) :=
      mul_nonneg (div_nonneg (by linarith [le_of_not_le h15]) (by norm_num)) (by norm_num)
    linarith
  · have h : (0 : ℚ) ≤ (d - 30) / 15 * (10 / 100) :=
      mul_nonneg (div_nonneg (by linarith [le_of_not_le h30]) (by norm_num)) (by norm_num)
    linarith
  · have h : (0 : ℚ) ≤ (d - 45) / 15 * (10 / 100) :=
      mul_nonneg (div_nonneg (by linarith [le_of_not_le h45]) (by norm_num)) (by norm_num)
    linarith

/-- C8: there is a pair of weights both inside the validated 80–400 lbs
range (80 lbs versus 400 lbs) for which the lighter practitioner's weight
factor under the default configuration is strictly negative: the accumulated
adjustment exceeds `1` and the lighter side receives `1 - adjustment` with no
lower bound. -/
theorem calculateWF_lighter_negative :
    ∃ w1 w2 : ℚ, 80 ≤ w1 ∧ w1 ≤ 400 ∧ 80 ≤ w2 ∧ w2 ≤ 400 ∧
      calculateWF defaultConfig w1 (some w2) < 0 := by
  refine ⟨80, 400, by norm_num, by norm_num, by norm_num, by norm_num, ?_⟩
  norm_num [calculateWF, totalAdjustment, wfLoop, defaultConfig, min_def]

/-- C3: under the default configuration, for any two different valid weights
the heavier practitioner's weight factor is strictly above `1`, the lighter's
strictly below `1`, and the two deviations from `1` both equal the same
adjustment computed from the absolute weight difference. -/
theorem calculateWF_pair_symmetric (w1 w2 : ℚ)
    (_hv1l : 80 ≤ w1) (_hv1u : w1 ≤ 400) (_hv2l : 80 ≤ w2) (_hv2u : w2 ≤ 400)
    (hlt : w1 < w2) :
    1 < calculateWF defaultConfig w2 (some w1) ∧
      calculateWF defaultConfig w1 (some w2) < 1 ∧
      calculateWF defaultConfig w2 (some w1) - 1 =
        totalAdjustment defaultConfig.weight_factor_config |w1 - w2| ∧
      1 - calculateWF defaultConfig w1 (some w2) =
        totalAdjustment defaultConfig.weight_factor_config |w1 - w2| := by
  have hd : 0 < w2 - w1 := by linarith
  have h1 : |w2 - w1| = w2 - w1 := abs_of_pos hd
  have h2 : |w1 - w2| = w2 - w1 := by rw [abs_sub_comm]; exact h1
  have hadj := totalAdjustment_pos (w2 - w1) hd
  simp only [calculateWF, h1, h2]
  rw [if_neg (by linarith), if_pos hlt, if_neg (by linarith),
    if_neg (not_lt.mpr hlt.le)]
  refine ⟨by linarith, by linarith, by ring, by ring⟩

/-- `calculateWF_pair_symmetric` at the concrete valid pair 170 lbs versus
185 lbs. -/
theorem calculateWF_pair_symmetric_witness :
    1 < calculateWF defaultConfig 185 (some 170) ∧
      calculateWF defaultConfig 170 (some 185) < 1 ∧
      calculateWF defaultConfig 185 (some 170) - 1 =
        totalAdjustment defaultConfig.weight_factor_config |(170 : ℚ) - 185| ∧
      1 - calculateWF defaultConfig 170 (some 185) =
        totalAdjustment defaultConfig.weight_factor_config |(170 : ℚ) - 185| :=
  calculateWF_pair_symmetric 170 185 (by norm_num) (by norm_num) (by norm_num)
    (by norm_num) (by norm_num)

/-- The spec's per-factor classification contract: `high` on or above the
high threshold, `low` on or below the low threshold, `neutral` strictly in
between (both boundaries inclusive). -/
def ClassifiedPerSpec (highThreshold lowThreshold value : ℚ) (s : Significance) : Prop :=
  (highThreshold ≤ value → s = .high) ∧
  (value ≤ lowThreshold → s = .low) ∧
  (lowThreshold < value → value < highThreshold → s = .neutral)

/-- `classifyValue` meets `ClassifiedPerSpec` whenever the low threshold is
strictly below the high threshold. -/
theorem classifyValue_classified (highThreshold lowThreshold value : ℚ)
    (h : lowThreshold < highThreshold) :
    ClassifiedPerSpec highThreshold lowThreshold value
      (classifyValue highThreshold lowThreshold value) := by
  unfold ClassifiedPerSpec classifyValue
  split_ifs with h1 h2
  · exact ⟨fun _ => rfl, fun hlo => absurd (le_trans h1 hlo) h.not_le, fun _ hhi =>
      absurd h1 hhi.not_le⟩
  · exact ⟨fun hhi => absurd hhi h1, fun _ => rfl, fun hlo _ => absurd h2 hlo.not_le⟩
  · exact ⟨fun hhi => absurd hhi h1, fun hlo => absurd hlo h2, fun _ _ => rfl⟩

/-- The full conclusion of the significance-classification contract for one
configuration and one factor breakdown: each of the six multiplicative
factors follows the inclusive high/low/neutral thresholds, and the base score
is binary — `high` exactly when at least the Purple-belt base score, `low`
exactly when below it. -/
def SignificantFactorsClassified (cfg : Config) (purpleScore : ℚ)
    (factors : FactorResults) : Prop :=
  let hi := cfg.profile_dynamics_config.significant_multiplier_threshold_high
  let lo := cfg.profile_dynamics_config.significant_multiplier_threshold_low
  let sig := identifySignificantFactors cfg factors
  ClassifiedPerSpec hi lo factors.af sig.af ∧
  ClassifiedPerSpec hi lo factors.wf sig.wf ∧
  ClassifiedPerSpec hi lo factors.acf sig.acf ∧
  ClassifiedPerSpec hi lo factors.ref sig.ref ∧
  ClassifiedPerSpec hi lo factors.tff sig.tff ∧
  ClassifiedPerSpec hi lo factors.cef sig.cef ∧
  (sig.brs = .high ↔ purpleScore ≤ factors.brs) ∧
  (sig.brs = .low ↔ factors.brs < purpleScore)

/-- C5: for every factor breakdown and every configuration whose low
threshold is below its high threshold and whose belt table resolves
`"Purple"`, `identifySignificantFactors` classifies each of the six
multiplicative factors `high` at or above the high threshold, `low` at or
below the low threshold, `neutral` otherwise, and classifies the base score
binarily against the Purple-belt base score. -/
theorem identifySignificantFactors_spec (cfg : Config) (purpleScore : ℚ)
    (factors : FactorResults)
    (hthr : cfg.profile_dynamics_config.significant_multiplier_threshold_low <
      cfg.profile_dynamics_config.significant_multiplier_threshold_high)
    (hpurple : cfg.belt_rank_scores.lookup "Purple" = some purpleScore) :
    SignificantFactorsClassified cfg purpleScore factors := by
  unfold SignificantFactorsClassified
  refine ⟨classifyValue_classified _ _ _ hthr, classifyValue_classified _ _ _ hthr,
    classifyValue_classified _ _ _ hthr, classifyValue_classified _ _ _ hthr,
    classifyValue_classified _ _ _ hthr, classifyValue_classified _ _ _ hthr, ?_, ?_⟩ <;>
    simp only [identifySignificantFactors, hpurple] <;> split_ifs with h <;>
    simp [h, lt_of_not_le, le_of_not_lt, not_le.mp]

/-- `identifySignificantFactors_spec` at the default configuration and a
breakdown sitting exactly on both inclusive boundaries (`af` at the high
threshold `1.10`, `wf` at the low threshold `0.90`, `brs` at the Purple
score `350`). -/
theorem identifySignificantFactors_spec_witness :
    SignificantFactorsClassified defaultConfig 350
      (FactorResults.mk 350 1.10 0.90 1 1 1 1) :=
  identifySignificantFactors_spec defaultConfig 350
    (FactorResults.mk 350 1.10 0.90 1 1 1 1)
    (by norm_num [defaultConfig])
    (by simp [defaultConfig, List.lookup])

/-- C6: `determineDominantTrait` implements the spec's four-rule decision
table in precedence order with first match winning, where the physical side
is `some` of {weight, athleticism, experience} being `high`. -/
theorem determineDominantTrait_spec (sig : FactorSignificance) :
    (sig.brs = .high → ¬physicalFactorHigh sig →
      determineDominantTrait sig = "Technical BJJ Specialist") ∧
    (sig.brs = .low → physicalFactorHigh sig →
      determineDominantTrait sig = "Physical Grappling Athlete") ∧
    (sig.brs = .high → physicalFactorHigh sig →
      determineDominantTrait sig = "Dominant All-Rounder") ∧
    (¬(sig.brs = .high ∧ ¬physicalFactorHigh sig) →
      ¬(sig.brs = .low ∧ physicalFactorHigh sig) →
      ¬(sig.brs = .high ∧ physicalFactorHigh sig) →
      determineDominantTrait sig = "Balanced Practitioner") := by
  unfold determineDominantTrait
  refine ⟨?_, ?_, ?_, ?_⟩ <;> intros h1 h2 <;> try intro h3
  · rw [if_pos ⟨h1, h2⟩]
  · rw [if_neg (by simp [h1]), if_pos ⟨h1, h2⟩]
  · rw [if_neg (by tauto), if_neg (by simp [h1]), if_pos ⟨h1, h2⟩]
  · rw [if_neg h1, if_neg h2, if_neg h3]

/-- `determineDominantTrait_spec` at the all-neutral significance record:
none of the first three rules matches, so the trait is the fall-through
`"Balanced Practitioner"`. -/
theorem determineDominantTrait_spec_witness :
    determineDominantTrait
      (FactorSignificance.mk .neutral .neutral .neutral .neutral .neutral .neutral .neutral) =
      "Balanced Practitioner" :=
  (determineDominantTrait_spec
    (FactorSignificance.mk .neutral .neutral .neutral .neutral .neutral .neutral .neutral)).2.2.2
    (by decide) (by decide) (by decide)

/-- C4: for any configuration whose decline rate lies in `[0, 1)`, the age
factor returns the configured youthful multiplier for every age strictly
below the configured peak age; at or past the peak it equals
`(1 - rate) ^ ((age - peak) / 10)` with a real-valued exponent; and it is
monotonically non-increasing as age increases past the peak age. -/
theorem calculateAF_spec (cfg : Config)
    (hrate0 : 0 ≤ cfg.age_factor_config.power_decline_rate_per_decade)
    (hrate1 : cfg.age_factor_config.power_decline_rate_per_decade < 1) :
    (∀ age : ℚ, age < cfg.age_factor_config.peak_age_years →
      calculateAF cfg age = (cfg.age_factor_config.youthful_factor_multiplier : ℝ)) ∧
    (∀ age : ℚ, cfg.age_factor_config.peak_age_years ≤ age →
      calculateAF cfg age =
        ((1 - cfg.age_factor_config.power_decline_rate_per_decade : ℚ) : ℝ) ^
          (((age - cfg.age_factor_config.peak_age_years) / 10 : ℚ) : ℝ)) ∧
    (∀ a b : ℚ, cfg.age_factor_config.peak_age_years ≤ a → a ≤ b →
      calculateAF cfg b ≤ calculateAF cfg a) := by
  have hbase0 : (0 : ℝ) <
      ((1 - cfg.age_factor_config.power_decline_rate_per_decade : ℚ) : ℝ) := by
    have : (0 : ℚ) < 1 - cfg.age_factor_config.power_decline_rate_per_decade := by
      linarith
    exact_mod_cast this
  have hbase1 : ((1 - cfg.age_factor_config.power_decline_rate_per_decade : ℚ) : ℝ) ≤ 1 := by
    have : (1 - cfg.age_factor_config.power_decline_rate_per_decade : ℚ) ≤ 1 := by
      linarith
    exact_mod_cast this
  refine ⟨?_, ?_, ?_⟩
  · intro age hage
    simp [calculateAF, if_pos hage]
  · intro age hage
    simp [calculateAF, not_lt.mpr hage]
  · intro a b ha hab
    have hb : cfg.age_factor_config.peak_age_years ≤ b := le_trans ha hab
    simp only [calculateAF, if_neg (not_lt.mpr ha), if_neg (not_lt.mpr hb)]
    apply Real.rpow_le_rpow_of_exponent_ge hbase0 hbase1
    have : ((a - cfg.age_factor_config.peak_age_years) / 10 : ℚ) ≤
        ((b - cfg.age_factor_config.peak_age_years) / 10 : ℚ) := by
      linarith
    exact_mod_cast this

/-- `calculateAF_spec` at the default configuration: the age factor at 40 is
no larger than at 35. -/
theorem calculateAF_spec_witness :
    calculateAF defaultConfig 40 ≤ calculateAF defaultConfig 35 :=
  (calculateAF_spec defaultConfig (by norm_num [defaultConfig])
    (by norm_num [defaultConfig])).2.2 35 40 (by norm_num [defaultConfig])
    (by norm_num)

/-- C9: at the default configuration's peak age 25 the age factor is exactly
`1` (zero decades past peak), at age 24 it is the youthful multiplier
`1.03`, so the factor drops discontinuously by exactly `0.03` between the
adjacent ages 24 and 25. -/
theorem calculateAF_peak_discontinuity :
    calculateAF defaultConfig 25 = 1 ∧
    calculateAF defaultConfig 24 = 1.03 ∧
    calculateAF defaultConfig 25 < calculateAF defaultConfig 24 ∧
    calculateAF defaultConfig 24 - calculateAF defaultConfig 25 = 0.03 := by
  have h25 : calculateAF defaultConfig 25 = 1 := by
    have : (((25 : ℚ) - 25) / 10 : ℚ) = 0 := by norm_num
    simp [calculateAF, defaultConfig, this]
  have h24 : calculateAF defaultConfig 24 = 1.03 := by
    norm_num [calculateAF, defaultConfig]
  refine ⟨h25, h24, ?_, ?_⟩ <;> rw [h25, h24] <;> norm_num

end JAR
